import Mathlib

/-!
Shallow embedding of the EAP dispatch core of FreeRADIUS (`rlm_eap.c`) and of
the PEAP session initialiser (`rlm_eap_peap.c`), together with theorems that
settle the specification claims about these functions.

Machine integers are modelled as `Nat` (all quantities involved are small, so
no overflow arises on the relevant paths); attribute lists are `List`s;
fallible external collaborators (packet decoding, TLS allocation,
tunnel-password coding) are modelled as `Option`-returning parameters.
-/

namespace RlmEap

/-!
### Protocol constants

EAP type numbers and packet codes (fixed by RFC 3748 and the `eap_types.h`
header of the repository, which is not among the provided sources; the values
below are the standard ones the code refers to symbolically).
-/

def PW_EAP_INVALID : Nat := 0
def PW_EAP_IDENTITY : Nat := 1
def PW_EAP_NAK : Nat := 3
def PW_EAP_MD5 : Nat := 4
def PW_EAP_LEAP : Nat := 17
def PW_EAP_MAX_TYPES : Nat := 52

def PW_EAP_REQUEST : Nat := 1
def PW_EAP_RESPONSE : Nat := 2
def PW_EAP_SUCCESS : Nat := 3
def PW_EAP_FAILURE : Nat := 4

def PW_CODE_ACCESS_ACCEPT : Nat := 2
def PW_USER_NAME : Nat := 1
def PW_EAP_MESSAGE : Nat := 79
def PW_MESSAGE_AUTHENTICATOR : Nat := 80
def AUTH_VECTOR_LEN : Nat := 16
def PW_AUTH_TYPE : Nat := 1000

/-- Dictionary value of `Auth-Type Reject`.  The exact numeric value is fixed
by the server dictionary (not among the sources); only comparisons against it
matter, so any fixed value is faithful. -/
def PW_AUTH_TYPE_REJECT : Nat := 4

/-- Dictionary value of `Post-Auth-Type Reject` (same remark as for
`PW_AUTH_TYPE_REJECT`). -/
def PW_POST_AUTH_TYPE_REJECT : Nat := 4

/-- Module return codes (`rlm_rcode_t`). -/
inductive Rcode
  | reject
  | fail
  | ok
  | handled
  | invalid
  | noop
  | updated
deriving DecidableEq, Repr

/-- A RADIUS attribute (`VALUE_PAIR`) reduced to the data the embedded code
reads: vendor number, attribute number, and the value octets (without the
trailing NUL terminator the C code keeps for string values). -/
structure Pair where
  vendor : Nat
  attr : Nat
  value : List Nat
deriving DecidableEq, Repr

/-!
### `eap_process_nak` (rlm_eap.c lines 232-333)

The environment holds the data the function reads besides the NAK list:
which EAP methods are registered (`inst->methods[i] != NULL`) and the value
of the first `control:EAP-Type` pair when one exists (`vp->vp_integer`).
-/

structure NakEnv where
  methods : Nat → Bool
  pin : Option Nat

/-- The per-user pin test of line 312: skip when a `control:EAP-Type` pair
exists and its value differs from the proposed type. -/
def pin_skip (pin : Option Nat) (d : Nat) : Bool :=
  match pin with
  | some p => decide (p ≠ d)
  | none => false

/-- The scan loop of `eap_process_nak` (lines 259-326), translated clause by
clause.  An empty list covers both the `!nak->data` guard of line 248 and a
zero `nak->length`: each returns `PW_EAP_INVALID`. -/
def eap_process_nak_scan (env : NakEnv) (type : Nat) : List Nat → Nat
  | [] => PW_EAP_INVALID
  | d :: rest =>
    if d = 0 then PW_EAP_INVALID
    else if d < PW_EAP_MD5 then PW_EAP_INVALID
    else if decide (PW_EAP_MAX_TYPES ≤ d) || !env.methods d then
      eap_process_nak_scan env type rest
    else if type = d then eap_process_nak_scan env type rest
    else if pin_skip env.pin d then eap_process_nak_scan env type rest
    else d

/-- The function `eap_process_nak`: pick one of the types the peer asked for. -/
def eap_process_nak (env : NakEnv) (type : Nat) (nak : List Nat) : Nat :=
  eap_process_nak_scan env type nak

/-- The combined "skip and continue" condition of the scan (lines 280-318),
for elements that are not terminal (`0` or below MD5). -/
def nak_skip (env : NakEnv) (type : Nat) (d : Nat) : Bool :=
  (decide (PW_EAP_MAX_TYPES ≤ d) || !env.methods d) || decide (type = d) ||
    pin_skip env.pin d

/-- The acceptance condition of the scan: not terminal and not skipped. -/
def nak_accept (env : NakEnv) (type : Nat) (d : Nat) : Bool :=
  !decide (d < PW_EAP_MD5) && !nak_skip env type d

/-- If every element of the list is a non-terminal skipped one, the scan
exhausts the list and fails. -/
theorem eap_process_nak_scan_exhaust (env : NakEnv) (t : Nat) :
    ∀ l : List Nat, (∀ d ∈ l, ¬ d < PW_EAP_MD5 ∧ nak_skip env t d = true) →
      eap_process_nak_scan env t l = PW_EAP_INVALID := by
  intro l
  induction l with
  | nil => intro _; rfl
  | cons d rest ih =>
    intro h
    obtain ⟨hd4, hdskip⟩ := h d (List.mem_cons_self d rest)
    have hrest : ∀ x ∈ rest, ¬ x < PW_EAP_MD5 ∧ nak_skip env t x = true :=
      fun x hx => h x (List.mem_cons_of_mem d hx)
    have hd0 : ¬ d = 0 := fun h0 => hd4 (by simp [h0, PW_EAP_MD5])
    rw [eap_process_nak_scan, if_neg hd0, if_neg hd4]
    by_cases hm : (decide (PW_EAP_MAX_TYPES ≤ d) || !env.methods d) = true
    · rw [if_pos hm]; exact ih hrest
    · rw [if_neg hm]
      by_cases ht : t = d
      · rw [if_pos ht]; exact ih hrest
      · rw [if_neg ht]
        have hp : pin_skip env.pin d = true := by
          simp only [nak_skip, Bool.or_eq_true] at hdskip
          rcases hdskip with ((h1 | h1) | h2) | h3
          · exact absurd (by simp [h1]) hm
          · exact absurd (by simp [h1]) hm
          · exact absurd (of_decide_eq_true h2) ht
          · exact h3
        rw [if_pos hp]
        exact ih hrest

/-- Soundness of the scan: a result other than `PW_EAP_INVALID` is a member
of the list that is registered, at least MD5, below the maximum, different
from the running type, and equal to the per-user pin when one exists. -/
theorem eap_process_nak_scan_sound (env : NakEnv) (t : Nat) :
    ∀ l : List Nat, eap_process_nak_scan env t l ≠ PW_EAP_INVALID →
      eap_process_nak_scan env t l ∈ l ∧
      env.methods (eap_process_nak_scan env t l) = true ∧
      PW_EAP_MD5 ≤ eap_process_nak_scan env t l ∧
      eap_process_nak_scan env t l < PW_EAP_MAX_TYPES ∧
      eap_process_nak_scan env t l ≠ t ∧
      (∀ p, env.pin = some p → eap_process_nak_scan env t l = p) := by
  intro l
  induction l with
  | nil => intro h; exact absurd rfl h
  | cons d rest ih =>
    intro h
    by_cases hd0 : d = 0
    · rw [eap_process_nak_scan, if_pos hd0] at h
      exact absurd rfl h
    · by_cases hd4 : d < PW_EAP_MD5
      · rw [eap_process_nak_scan, if_neg hd0, if_pos hd4] at h
        exact absurd rfl h
      · by_cases hm : (decide (PW_EAP_MAX_TYPES ≤ d) || !env.methods d) = true
        · rw [eap_process_nak_scan, if_neg hd0, if_neg hd4, if_pos hm] at h ⊢
          obtain ⟨h1, h2⟩ := ih h
          exact ⟨List.mem_cons_of_mem d h1, h2⟩
        · by_cases ht : t = d
          · rw [eap_process_nak_scan, if_neg hd0, if_neg hd4, if_neg hm,
                if_pos ht] at h ⊢
            obtain ⟨h1, h2⟩ := ih h
            exact ⟨List.mem_cons_of_mem d h1, h2⟩
          · by_cases hp : pin_skip env.pin d = true
            · rw [eap_process_nak_scan, if_neg hd0, if_neg hd4, if_neg hm,
                  if_neg ht, if_pos hp] at h ⊢
              obtain ⟨h1, h2⟩ := ih h
              exact ⟨List.mem_cons_of_mem d h1, h2⟩
            · rw [eap_process_nak_scan, if_neg hd0, if_neg hd4, if_neg hm,
                  if_neg ht, if_neg hp] at h ⊢
              cases hreg : env.methods d with
              | false => exact absurd (by simp [hreg]) hm
              | true =>
                have hmax : ¬ PW_EAP_MAX_TYPES ≤ d := fun hle => hm (by simp [hle])
                refine ⟨List.mem_cons_self d rest, rfl, by omega, by omega,
                  fun hdt => ht hdt.symm, ?_⟩
                intro p hpin
                simp only [pin_skip, hpin, decide_eq_true_eq, not_not] at hp
                exact hp.symm

/-- C1 (NAK negotiation, `eap_process_nak`): scanning the NAK type-data
list in order with currently-running type `t`, the function returns invalid
on an empty list; it returns invalid at an element that is `0` or below MD5;
it continues past elements that are at least `PW_EAP_MAX_TYPES`, unregistered,
equal to `t`, or different from an existing `control:EAP-Type` pin; it returns
the first element surviving these filters; it returns invalid when the scan
exhausts the list; and consequently any type it returns is registered, at
least MD5, below the maximum, and different from the running type. -/
theorem eap_process_nak_correct (env : NakEnv) (t : Nat) (l : List Nat) :
    (l = [] → eap_process_nak env t l = PW_EAP_INVALID) ∧
    (∀ d rest, l = d :: rest → d < PW_EAP_MD5 →
       eap_process_nak env t l = PW_EAP_INVALID) ∧
    (∀ d rest, l = d :: rest → ¬ d < PW_EAP_MD5 → nak_skip env t d = true →
       eap_process_nak env t l = eap_process_nak env t rest) ∧
    (∀ d rest, l = d :: rest → nak_accept env t d = true →
       eap_process_nak env t l = d) ∧
    ((∀ d ∈ l, ¬ d < PW_EAP_MD5 ∧ nak_skip env t d = true) →
       eap_process_nak env t l = PW_EAP_INVALID) ∧
    (eap_process_nak env t l ≠ PW_EAP_INVALID →
       eap_process_nak env t l ∈ l ∧
       env.methods (eap_process_nak env t l) = true ∧
       PW_EAP_MD5 ≤ eap_process_nak env t l ∧
       eap_process_nak env t l < PW_EAP_MAX_TYPES ∧
       eap_process_nak env t l ≠ t ∧
       (∀ p, env.pin = some p → eap_process_nak env t l = p)) := by
  refine ⟨?_, ?_, ?_, ?_, ?_, ?_⟩
  · intro he; rw [he]; rfl
  · intro d rest he hd4
    subst he
    by_cases hd0 : d = 0
    · rw [eap_process_nak, eap_process_nak_scan, if_pos hd0]
    · rw [eap_process_nak, eap_process_nak_scan, if_neg hd0, if_pos hd4]
  · intro d rest he hd4 hskip
    subst he
    have hd0 : ¬ d = 0 := fun h0 => hd4 (by simp [h0, PW_EAP_MD5])
    rw [eap_process_nak, eap_process_nak, eap_process_nak_scan,
        if_neg hd0, if_neg hd4]
    by_cases hm : (decide (PW_EAP_MAX_TYPES ≤ d) || !env.methods d) = true
    · rw [if_pos hm]
    · rw [if_neg hm]
      by_cases ht : t = d
      · rw [if_pos ht]
      · rw [if_neg ht]
        have hp : pin_skip env.pin d = true := by
          simp only [nak_skip, Bool.or_eq_true] at hskip
          rcases hskip with ((h1 | h1) | h2) | h3
          · exact absurd (by simp [h1]) hm
          · exact absurd (by simp [h1]) hm
          · exact absurd (of_decide_eq_true h2) ht
          · exact h3
        rw [if_pos hp]
  · intro d rest he hacc
    subst he
    simp only [nak_accept, Bool.and_eq_true, Bool.not_eq_true', decide_eq_false_iff_not,
      nak_skip, Bool.or_eq_false_iff, decide_eq_false_iff_not] at hacc
    obtain ⟨hd4, ⟨hm, ht⟩, hp⟩ := hacc
    have hd0 : ¬ d = 0 := fun h0 => hd4 (by simp [h0, PW_EAP_MD5])
    rw [eap_process_nak, eap_process_nak_scan, if_neg hd0, if_neg hd4,
        if_neg (by simp [hm]), if_neg ht, if_neg (by simp [hp])]
  · exact eap_process_nak_scan_exhaust env t l
  · exact eap_process_nak_scan_sound env t l

/-- A concrete environment for the C1 witness: methods 13 and 25 registered,
per-user pin set to 13. -/
def nakEnv0 : NakEnv := ⟨fun d => decide (d = 13 ∨ d = 25), some 13⟩

/-- Witness for C1: in `nakEnv0` with running type 25, the NAK list `[13]`
has an accepted head and the negotiation returns 13. -/
theorem eap_process_nak_correct_witness :
    nak_accept nakEnv0 25 13 = true ∧ eap_process_nak nakEnv0 25 [13] = 13 :=
  ⟨by decide, (eap_process_nak_correct nakEnv0 25 [13]).2.2.2.1 13 [] rfl (by decide)⟩

/-!
### List helpers

Small executable helpers (first matching index, and lemmas about them) used
to embed the `fr_pair_find_by_num` / `fr_cursor` idioms of the C code.
-/

/-- Index of the first element satisfying `p` (the `fr_pair_find_by_num`
idiom: scan the list front to back). -/
def findFirstIdx {α : Type} (p : α → Bool) : List α → Option Nat
  | [] => none
  | x :: rest => if p x then some 0 else (findFirstIdx p rest).map (· + 1)

theorem findFirstIdx_get {α : Type} {p : α → Bool} :
    ∀ (l : List α) (i : Nat), findFirstIdx p l = some i →
      ∃ x, l[i]? = some x ∧ p x = true := by
  intro l
  induction l with
  | nil => intro i h; simp [findFirstIdx] at h
  | cons y ys ih =>
    intro i h
    rw [findFirstIdx] at h
    by_cases hy : p y = true
    · rw [if_pos hy] at h
      cases h
      exact ⟨y, by simp, hy⟩
    · rw [if_neg hy] at h
      cases hys : findFirstIdx p ys with
      | none => rw [hys] at h; simp at h
      | some j =>
        rw [hys] at h
        simp only [Option.map_some'] at h
        obtain ⟨x, hx, hpx⟩ := ih j hys
        cases h
        exact ⟨x, by simpa using hx, hpx⟩

theorem findFirstIdx_append_none {α : Type} {p : α → Bool} (l : List α) (x : α)
    (h : findFirstIdx p l = none) :
    findFirstIdx p (l ++ [x]) = if p x then some l.length else none := by
  induction l with
  | nil => simp [findFirstIdx]
  | cons y ys ih =>
    rw [findFirstIdx] at h
    by_cases hy : p y = true
    · rw [if_pos hy] at h; cases h
    · rw [if_neg hy] at h
      have hys : findFirstIdx p ys = none := by
        cases hys2 : findFirstIdx p ys with
        | none => rfl
        | some j => rw [hys2] at h; simp at h
      rw [List.cons_append, findFirstIdx, if_neg hy, ih hys]
      by_cases hx : p x = true
      · rw [if_pos hx, if_pos hx]
        simp
      · rw [if_neg hx, if_neg hx]
        rfl

theorem getElem?_some_lt {α : Type} :
    ∀ (l : List α) (i : Nat) (x : α), l[i]? = some x → i < l.length := by
  intro l
  induction l with
  | nil => intro i x h; simp at h
  | cons a t ih =>
    intro i x h
    cases i with
    | zero => simp
    | succ j =>
      have := ih j x (by simpa using h)
      simp only [List.length_cons]
      omega

theorem getElem?_concat_length {α : Type} (l : List α) (x : α) :
    (l ++ [x])[l.length]? = some x := by
  induction l with
  | nil => rfl
  | cons a t ih => simp [ih]

theorem set_concat_length {α : Type} (l : List α) (x y : α) :
    (l ++ [x]).set l.length y = l ++ [y] := by
  induction l with
  | nil => rfl
  | cons a t ih =>
    simp only [List.cons_append, List.length_cons, List.set_cons_succ]
    rw [ih]

theorem any_set_true {α : Type} {p : α → Bool} :
    ∀ (l : List α) (i : Nat) (x : α), i < l.length → p x = true →
      (l.set i x).any p = true := by
  intro l
  induction l with
  | nil => intro i x hi _; simp at hi
  | cons a t ih =>
    intro i x hi hp
    cases i with
    | zero => simp [List.set_cons_zero, List.any_cons, hp]
    | succ j =>
      rw [List.set_cons_succ]
      simp only [List.any_cons, Bool.or_eq_true]
      right
      exact ih j x (by simp at hi; omega) hp

theorem any_of_getElem? {α : Type} {p : α → Bool} :
    ∀ (l : List α) (i : Nat) (x : α), l[i]? = some x → p x = true →
      l.any p = true := by
  intro l
  induction l with
  | nil => intro i x h _; simp at h
  | cons a t ih =>
    intro i x h hp
    cases i with
    | zero =>
      simp only [List.getElem?_cons_zero] at h
      cases h
      simp [List.any_cons, hp]
    | succ j =>
      simp only [List.any_cons, Bool.or_eq_true]
      right
      exact ih j x (by simpa using h) hp

/-!
### `mod_authenticate` (rlm_eap.c lines 477-600)

External collaborators are abstracted as booleans and parameters:
`hasEapMessage` is the `fr_pair_find_by_num(... PW_EAP_MESSAGE ...)` test of
line 484, `decodeOk` the success of `eap_vp2packet` (line 494), `sessionOk`
the success of `eap_session_continue` (line 506), `selectRcode` the result of
`eap_method_select` (line 517) and `composeRcode` the result of `eap_compose`
(line 532).  `thisRound` carries the packet headers the retention decision of
lines 538-553 reads.
-/

/-- The code and type number of an EAP packet, as read by the retention
decision (`eap_packet->code`, `eap_packet->type.num`). -/
structure EapPacketHdr where
  code : Nat
  typeNum : Nat
deriving DecidableEq, Repr

/-- The request/response pair of an EAP round (`eap_round_t`), reduced to the
header fields `mod_authenticate` reads. -/
structure EapRound where
  request : EapPacketHdr
  response : EapPacketHdr
deriving DecidableEq, Repr

/-- The retention condition of lines 538-553: keep the session for an
EAP-Request of a real method, or for LEAP's trailing round (a LEAP Response
answered by a Success with type number 0). -/
def eap_retain_round (r : EapRound) : Bool :=
  (decide (r.request.code = PW_EAP_REQUEST) &&
   decide (PW_EAP_MD5 ≤ r.request.typeNum)) ||
  (decide (r.response.code = PW_EAP_RESPONSE) &&
   decide (r.response.typeNum = PW_EAP_LEAP) &&
   decide (r.request.code = PW_EAP_SUCCESS) &&
   decide (r.request.typeNum = 0))

theorem eap_retain_round_iff (r : EapRound) :
    eap_retain_round r = true ↔
      ((r.request.code = PW_EAP_REQUEST ∧ PW_EAP_MD5 ≤ r.request.typeNum) ∨
       (r.response.code = PW_EAP_RESPONSE ∧ r.response.typeNum = PW_EAP_LEAP ∧
        r.request.code = PW_EAP_SUCCESS ∧ r.request.typeNum = 0)) := by
  simp [eap_retain_round, and_assoc]

/-- The lookup `fr_pair_find_by_num(request->reply->vps, 0, PW_USER_NAME, TAG_ANY)`
predicate of line 573. -/
def is_user_name (p : Pair) : Bool :=
  decide (p.vendor = 0) && decide (p.attr = PW_USER_NAME)

def user_name_idx (vps : List Pair) : Option Nat :=
  findFirstIdx is_user_name vps

def has_user_name (vps : List Pair) : Bool :=
  vps.any is_user_name

/-- The cisco_accounting_username_bug rewrite of lines 583-589:
`talloc_zero_array(vp, char, vp->vp_length + 1 + 1)` followed by a copy of
the old bytes leaves the original bytes followed by exactly two NUL bytes. -/
def cisco_pad (v : List Nat) : List Nat := v ++ [0, 0]

/-- Step 5 of `mod_authenticate` (lines 567-590): on an Access-Accept with a
known request username, add a copy of the username to the reply when it lacks
a `User-Name` attribute, and apply the Cisco AP1230 padding when the
`cisco_accounting_username_bug` flag is set. -/
def eap_user_name_step (replyCode : Nat) (username : Option (List Nat))
    (cisco : Bool) (vps : List Pair) : List Pair :=
  match username with
  | none => vps
  | some u =>
    if replyCode = PW_CODE_ACCESS_ACCEPT then
      let vps1 := match user_name_idx vps with
        | some _ => vps
        | none => vps ++ [⟨0, PW_USER_NAME, u⟩]
      if cisco then
        match user_name_idx vps1 with
        | some i =>
          match vps1[i]? with
          | some vp => vps1.set i ⟨vp.vendor, vp.attr, cisco_pad vp.value⟩
          | none => vps1
        | none => vps1
      else vps1
    else vps

/-- Abstracted inputs of one `mod_authenticate` invocation. -/
structure AuthIn where
  hasEapMessage : Bool
  decodeOk : Bool
  sessionOk : Bool
  selectRcode : Rcode
  composeRcode : Rcode
  thisRound : EapRound
  replyCode : Nat
  replyVps : List Pair
  username : Option (List Nat)
  ciscoBug : Bool
deriving Repr

/-- What happened to the EAP session during the invocation. -/
inductive SessionFate
  | noSession
  | destroyed
  | retained
deriving DecidableEq, Repr

/-- Observable outcome of one `mod_authenticate` invocation. -/
structure AuthOut where
  rcode : Rcode
  fate : SessionFate
  eapFailComposed : Bool
  prevRound : Option EapRound
  thisRoundAfter : Option EapRound
  replyVps : List Pair
deriving DecidableEq, Repr

/-- The hook `mod_authenticate` (lines 477-600).  Note that the
`rcode == RLM_MODULE_INVALID` branch of lines 522-526 jumps to the `finish`
label of line 592, past the User-Name block of lines 567-590. -/
def mod_authenticate (a : AuthIn) : AuthOut :=
  if !a.hasEapMessage then
    ⟨.invalid, .noSession, false, none, none, a.replyVps⟩
  else if !a.decodeOk then
    ⟨.fail, .noSession, false, none, none, a.replyVps⟩
  else if !a.sessionOk then
    ⟨.invalid, .noSession, false, none, none, a.replyVps⟩
  else if a.selectRcode = .invalid then
    ⟨.invalid, .destroyed, true, none, none, a.replyVps⟩
  else if eap_retain_round a.thisRound then
    ⟨a.composeRcode, .retained, false, some a.thisRound, none,
      eap_user_name_step a.replyCode a.username a.ciscoBug a.replyVps⟩
  else
    ⟨a.composeRcode, .destroyed, false, none, none,
      eap_user_name_step a.replyCode a.username a.ciscoBug a.replyVps⟩

/-- Under the guards of a successful round, the reply attribute list is the
one produced by the User-Name step, whatever the retention decision. -/
theorem mod_authenticate_replyVps (a : AuthIn)
    (h1 : a.hasEapMessage = true) (h2 : a.decodeOk = true) (h3 : a.sessionOk = true)
    (h4 : a.selectRcode ≠ Rcode.invalid) :
    (mod_authenticate a).replyVps =
      eap_user_name_step a.replyCode a.username a.ciscoBug a.replyVps := by
  by_cases hr : eap_retain_round a.thisRound = true <;>
    simp [mod_authenticate, h1, h2, h3, h4, hr]

/-- C2 (session retention in `mod_authenticate`): after a successful
method round, the session is retained, with `prev_round` set to the old
`this_round` and `this_round` cleared, exactly when the request to the peer
is an EAP-Request of type at least MD5, or the response is a LEAP Response
while the request is a Success with type number 0; in every other case the
session is destroyed. -/
theorem mod_authenticate_retention (a : AuthIn)
    (h1 : a.hasEapMessage = true) (h2 : a.decodeOk = true) (h3 : a.sessionOk = true)
    (h4 : a.selectRcode = Rcode.ok) :
    ((mod_authenticate a).fate = SessionFate.retained ↔
      ((a.thisRound.request.code = PW_EAP_REQUEST ∧
        PW_EAP_MD5 ≤ a.thisRound.request.typeNum) ∨
       (a.thisRound.response.code = PW_EAP_RESPONSE ∧
        a.thisRound.response.typeNum = PW_EAP_LEAP ∧
        a.thisRound.request.code = PW_EAP_SUCCESS ∧
        a.thisRound.request.typeNum = 0))) ∧
    ((mod_authenticate a).fate = SessionFate.retained →
       (mod_authenticate a).prevRound = some a.thisRound ∧
       (mod_authenticate a).thisRoundAfter = none) ∧
    ((mod_authenticate a).fate ≠ SessionFate.retained →
       (mod_authenticate a).fate = SessionFate.destroyed) := by
  by_cases hr : eap_retain_round a.thisRound = true
  · have hout : mod_authenticate a =
        ⟨a.composeRcode, .retained, false, some a.thisRound, none,
          eap_user_name_step a.replyCode a.username a.ciscoBug a.replyVps⟩ := by
      simp [mod_authenticate, h1, h2, h3, h4, hr]
    rw [hout]
    refine ⟨?_, fun _ => ⟨rfl, rfl⟩, fun hne => absurd rfl hne⟩
    simpa using (eap_retain_round_iff a.thisRound).mp hr
  · have hout : mod_authenticate a =
        ⟨a.composeRcode, .destroyed, false, none, none,
          eap_user_name_step a.replyCode a.username a.ciscoBug a.replyVps⟩ := by
      simp [mod_authenticate, h1, h2, h3, h4, hr]
    rw [hout]
    exact ⟨⟨fun hcon => SessionFate.noConfusion hcon,
            fun hcond => absurd ((eap_retain_round_iff a.thisRound).mpr hcond) hr⟩,
           ⟨fun hcon => SessionFate.noConfusion hcon, fun _ => rfl⟩⟩

/-- Concrete input for the C2 witness: an EAP-Request round of type MD5. -/
def authIn2 : AuthIn :=
  ⟨true, true, true, .ok, .handled, ⟨⟨1, 4⟩, ⟨2, 4⟩⟩, 2, [], none, false⟩

/-- Witness for C2: at `authIn2` the retention condition holds and the
session is retained with the rounds advanced. -/
theorem mod_authenticate_retention_witness :
    (mod_authenticate authIn2).fate = SessionFate.retained ∧
    (mod_authenticate authIn2).prevRound = some authIn2.thisRound ∧
    (mod_authenticate authIn2).thisRoundAfter = none :=
  ⟨by decide,
   (mod_authenticate_retention authIn2 rfl rfl rfl rfl).2.1 (by decide)⟩

/-- Concrete input on the failed-method-selection path, with an Access-Accept
reply code and a known username, used for C4. -/
def authIn4 : AuthIn :=
  ⟨true, true, true, .invalid, .ok, ⟨⟨1, 4⟩, ⟨2, 4⟩⟩, 2, [], some [98, 111, 98], false⟩

/-- Counterexample for C4: at `authIn4` method selection returned invalid;
the code composes an EAP-Failure, destroys the session and jumps to `finish`,
leaving the reply attribute list untouched — although the User-Name step
(step 5), which the claim says runs next, would have added a `User-Name`
pair.  The claim that the code proceeds to step 5 before freezing is false. -/
theorem mod_authenticate_goto_counterexample :
    authIn4.selectRcode = Rcode.invalid ∧
    authIn4.replyCode = PW_CODE_ACCESS_ACCEPT ∧
    (mod_authenticate authIn4).replyVps = [] ∧
    eap_user_name_step authIn4.replyCode authIn4.username authIn4.ciscoBug
        authIn4.replyVps = [⟨0, PW_USER_NAME, [98, 111, 98]⟩] := by
  decide

/-- C4 (amended): `mod_authenticate` returns invalid when the request
carries no EAP-Message attribute; fail when the EAP-Message fragments decode
as a malformed EAP packet; invalid when no session can be created or
retrieved; and when method selection returns invalid it composes an
EAP-Failure, destroys the session, and jumps directly to the freeze step,
skipping the Access-Accept User-Name step. -/
theorem mod_authenticate_error_paths (a : AuthIn) :
    (a.hasEapMessage = false → mod_authenticate a =
       ⟨Rcode.invalid, SessionFate.noSession, false, none, none, a.replyVps⟩) ∧
    (a.hasEapMessage = true → a.decodeOk = false → mod_authenticate a =
       ⟨Rcode.fail, SessionFate.noSession, false, none, none, a.replyVps⟩) ∧
    (a.hasEapMessage = true → a.decodeOk = true → a.sessionOk = false →
       mod_authenticate a =
       ⟨Rcode.invalid, SessionFate.noSession, false, none, none, a.replyVps⟩) ∧
    (a.hasEapMessage = true → a.decodeOk = true → a.sessionOk = true →
       a.selectRcode = Rcode.invalid → mod_authenticate a =
       ⟨Rcode.invalid, SessionFate.destroyed, true, none, none, a.replyVps⟩) := by
  refine ⟨?_, ?_, ?_, ?_⟩
  · intro h; simp [mod_authenticate, h]
  · intro h1 h2; simp [mod_authenticate, h1, h2]
  · intro h1 h2 h3; simp [mod_authenticate, h1, h2, h3]
  · intro h1 h2 h3 h4; simp [mod_authenticate, h1, h2, h3, h4]

/-- Witness for C4 (amended): at `authIn4` the reply list passes through the
failure path unchanged. -/
theorem mod_authenticate_error_paths_witness :
    authIn4.hasEapMessage = true ∧ authIn4.decodeOk = true ∧
    authIn4.sessionOk = true ∧ authIn4.selectRcode = Rcode.invalid ∧
    mod_authenticate authIn4 =
      ⟨Rcode.invalid, SessionFate.destroyed, true, none, none, authIn4.replyVps⟩ :=
  ⟨rfl, rfl, rfl, rfl, (mod_authenticate_error_paths authIn4).2.2.2 rfl rfl rfl rfl⟩

/-- Full case analysis of the User-Name step on an Access-Accept with a known
username: the reply ends up holding a `User-Name` pair; a missing pair is
added as a copy of the username; the `cisco_accounting_username_bug` flag
replaces the value of the (first found or freshly added) pair by the original
bytes followed by exactly two NUL bytes, a buffer of the original length plus
two. -/
theorem eap_user_name_step_cases (u : List Nat) (cisco : Bool) (vps : List Pair) :
    has_user_name (eap_user_name_step PW_CODE_ACCESS_ACCEPT (some u) cisco vps) = true ∧
    (user_name_idx vps = none → cisco = false →
       eap_user_name_step PW_CODE_ACCESS_ACCEPT (some u) cisco vps =
         vps ++ [⟨0, PW_USER_NAME, u⟩]) ∧
    (user_name_idx vps = none → cisco = true →
       eap_user_name_step PW_CODE_ACCESS_ACCEPT (some u) cisco vps =
         vps ++ [⟨0, PW_USER_NAME, u ++ [0, 0]⟩] ∧
       (u ++ [0, 0]).length = u.length + 2) ∧
    (∀ i vp, user_name_idx vps = some i → vps[i]? = some vp → cisco = true →
       eap_user_name_step PW_CODE_ACCESS_ACCEPT (some u) cisco vps =
         vps.set i ⟨vp.vendor, vp.attr, vp.value ++ [0, 0]⟩ ∧
       (vp.value ++ [0, 0]).length = vp.value.length + 2) ∧
    (∀ i vp, user_name_idx vps = some i → vps[i]? = some vp → cisco = false →
       eap_user_name_step PW_CODE_ACCESS_ACCEPT (some u) cisco vps = vps) := by
  have hnew : is_user_name ⟨0, PW_USER_NAME, u⟩ = true := rfl
  cases hidx : user_name_idx vps with
  | none =>
    cases cisco with
    | false =>
      have hev : eap_user_name_step PW_CODE_ACCESS_ACCEPT (some u) false vps =
          vps ++ [⟨0, PW_USER_NAME, u⟩] := by
        simp [eap_user_name_step, hidx]
      refine ⟨?_, fun _ _ => hev, ?_, ?_, ?_⟩
      · rw [hev]; simp [has_user_name, is_user_name, PW_USER_NAME]
      · intro _ hcon; exact Bool.noConfusion hcon
      · intro i vp hs _ _; exact Option.noConfusion hs
      · intro i vp hs _ _; exact Option.noConfusion hs
    | true =>
      have hidx' : findFirstIdx is_user_name vps = none := hidx
      have idx1 : user_name_idx (vps ++ [⟨0, PW_USER_NAME, u⟩]) = some vps.length := by
        rw [user_name_idx, findFirstIdx_append_none _ _ hidx', if_pos hnew]
      have hget : (vps ++ [(⟨0, PW_USER_NAME, u⟩ : Pair)])[vps.length]? =
          some (⟨0, PW_USER_NAME, u⟩ : Pair) :=
        getElem?_concat_length vps (⟨0, PW_USER_NAME, u⟩ : Pair)
      have hset : (vps ++ [(⟨0, PW_USER_NAME, u⟩ : Pair)]).set vps.length
            ⟨0, PW_USER_NAME, u ++ [0, 0]⟩ =
          vps ++ [⟨0, PW_USER_NAME, u ++ [0, 0]⟩] :=
        set_concat_length vps (⟨0, PW_USER_NAME, u⟩ : Pair)
          (⟨0, PW_USER_NAME, u ++ [0, 0]⟩ : Pair)
      have hev : eap_user_name_step PW_CODE_ACCESS_ACCEPT (some u) true vps =
          vps ++ [⟨0, PW_USER_NAME, u ++ [0, 0]⟩] := by
        simp [eap_user_name_step, hidx, idx1, hget, cisco_pad, hset]
      refine ⟨?_, ?_, ?_, ?_, ?_⟩
      · rw [hev]; simp [has_user_name, is_user_name, PW_USER_NAME]
      · intro _ hcon; exact Bool.noConfusion hcon
      · intro _ _; exact ⟨hev, by simp⟩
      · intro i vp hs _ _; exact Option.noConfusion hs
      · intro i vp hs _ _; exact Option.noConfusion hs
  | some i =>
    obtain ⟨vp0, hget0, hp0⟩ := findFirstIdx_get vps i hidx
    cases cisco with
    | false =>
      have hev : eap_user_name_step PW_CODE_ACCESS_ACCEPT (some u) false vps = vps := by
        simp [eap_user_name_step, hidx]
      refine ⟨?_, ?_, ?_, ?_, fun _ _ _ _ _ => hev⟩
      · rw [hev]; exact any_of_getElem? vps i vp0 hget0 hp0
      · intro hn _; exact Option.noConfusion hn
      · intro hn _; exact Option.noConfusion hn
      · intro _ _ _ _ hcon; exact Bool.noConfusion hcon
    | true =>
      have hev : eap_user_name_step PW_CODE_ACCESS_ACCEPT (some u) true vps =
          vps.set i ⟨vp0.vendor, vp0.attr, vp0.value ++ [0, 0]⟩ := by
        simp [eap_user_name_step, hidx, hget0, cisco_pad]
      refine ⟨?_, ?_, ?_, ?_, ?_⟩
      · rw [hev]
        refine any_set_true vps i _ (getElem?_some_lt vps i vp0 hget0) ?_
        simpa [is_user_name] using hp0
      · intro hn _; exact Option.noConfusion hn
      · intro hn _; exact Option.noConfusion hn
      · intro i' vp' hs hg _
        cases hs
        rw [hget0] at hg
        cases hg
        exact ⟨hev, by simp⟩
      · intro _ _ _ _ hcon; exact Bool.noConfusion hcon

/-- C6 (User-Name guarantee in `mod_authenticate`): on the successful
path, when the final reply code is Access-Accept and the request has a
username, the reply is guaranteed a `User-Name` pair — a copy of the
username is appended when none is present — and when the
`cisco_accounting_username_bug` flag is set the `User-Name` value is replaced
by a buffer of the original length plus two holding the original bytes
followed by exactly two trailing NUL bytes. -/
theorem mod_authenticate_user_name (a : AuthIn) (u : List Nat)
    (h1 : a.hasEapMessage = true) (h2 : a.decodeOk = true) (h3 : a.sessionOk = true)
    (h4 : a.selectRcode ≠ Rcode.invalid)
    (hrc : a.replyCode = PW_CODE_ACCESS_ACCEPT) (hu : a.username = some u) :
    has_user_name (mod_authenticate a).replyVps = true ∧
    (user_name_idx a.replyVps = none → a.ciscoBug = false →
       (mod_authenticate a).replyVps = a.replyVps ++ [⟨0, PW_USER_NAME, u⟩]) ∧
    (user_name_idx a.replyVps = none → a.ciscoBug = true →
       (mod_authenticate a).replyVps = a.replyVps ++ [⟨0, PW_USER_NAME, u ++ [0, 0]⟩] ∧
       (u ++ [0, 0]).length = u.length + 2) ∧
    (∀ i vp, user_name_idx a.replyVps = some i → a.replyVps[i]? = some vp →
       a.ciscoBug = true →
       (mod_authenticate a).replyVps =
         a.replyVps.set i ⟨vp.vendor, vp.attr, vp.value ++ [0, 0]⟩ ∧
       (vp.value ++ [0, 0]).length = vp.value.length + 2) ∧
    (∀ i vp, user_name_idx a.replyVps = some i → a.replyVps[i]? = some vp →
       a.ciscoBug = false → (mod_authenticate a).replyVps = a.replyVps) := by
  have hstep := mod_authenticate_replyVps a h1 h2 h3 h4
  rw [hrc, hu] at hstep
  rw [hstep]
  exact eap_user_name_step_cases u a.ciscoBug a.replyVps

/-- Concrete input for the C6 witness: Access-Accept, username "bob", empty
reply list, Cisco compatibility flag set. -/
def authIn6 : AuthIn :=
  ⟨true, true, true, .ok, .ok, ⟨⟨1, 4⟩, ⟨2, 4⟩⟩, 2, [], some [98, 111, 98], true⟩

/-- Witness for C6: at `authIn6` a `User-Name` copy padded with exactly two
NUL bytes is added to the reply. -/
theorem mod_authenticate_user_name_witness :
    authIn6.replyCode = PW_CODE_ACCESS_ACCEPT ∧
    authIn6.username = some [98, 111, 98] ∧
    (mod_authenticate authIn6).replyVps = [⟨0, PW_USER_NAME, [98, 111, 98, 0, 0]⟩] :=
  ⟨rfl, rfl,
    ((mod_authenticate_user_name authIn6 [98, 111, 98] rfl rfl rfl
      (by decide) rfl rfl).2.2.1 rfl rfl).1⟩

/-!
### `mod_post_auth` (rlm_eap.c lines 850-911)

`postAuthType` is the value of the first `control:Post-Auth-Type` pair
(line 860), `hasEapMessage` the request-side EAP-Message test of line 864,
`decodeOk` the success of `eap_vp2packet` (line 878) and `sessionOk` the
success of `eap_session_continue` (line 889).  The reply attribute list is
carried explicitly because the hook modifies it.
-/

structure PostAuthIn where
  postAuthType : Option Nat
  hasEapMessage : Bool
  decodeOk : Bool
  sessionOk : Bool
  replyVps : List Pair
deriving Repr

structure PostAuthOut where
  rcode : Rcode
  eapFailComposed : Bool
  sessionDestroyed : Bool
  replyVps : List Pair
deriving DecidableEq, Repr

def is_eap_message (p : Pair) : Bool :=
  decide (p.vendor = 0) && decide (p.attr = PW_EAP_MESSAGE)

def is_message_authenticator (p : Pair) : Bool :=
  decide (p.vendor = 0) && decide (p.attr = PW_MESSAGE_AUTHENTICATOR)

/-- The zero-filled Message-Authenticator placeholder of lines 904-907
(`talloc_zero_array(vp, uint8_t, AUTH_VECTOR_LEN)`). -/
def message_authenticator_placeholder : Pair :=
  ⟨0, PW_MESSAGE_AUTHENTICATOR, List.replicate AUTH_VECTOR_LEN 0⟩

/-- The hook `mod_post_auth` (lines 850-911).  The EAP-Failure composed by `eap_fail`
(line 896) is recorded as a flag; the Message-Authenticator placeholder is
appended only when the reply lacks one (lines 903-908). -/
def mod_post_auth (i : PostAuthIn) : PostAuthOut :=
  match i.postAuthType with
  | none => ⟨.noop, false, false, i.replyVps⟩
  | some v =>
    if v ≠ PW_POST_AUTH_TYPE_REJECT then ⟨.noop, false, false, i.replyVps⟩
    else if !i.hasEapMessage then ⟨.noop, false, false, i.replyVps⟩
    else if i.replyVps.any is_eap_message then ⟨.noop, false, false, i.replyVps⟩
    else if !i.decodeOk then ⟨.fail, false, false, i.replyVps⟩
    else if !i.sessionOk then ⟨.noop, false, false, i.replyVps⟩
    else if i.replyVps.any is_message_authenticator then
      ⟨.updated, true, true, i.replyVps⟩
    else
      ⟨.updated, true, true, i.replyVps ++ [message_authenticator_placeholder]⟩

/-- C5 (`mod_post_auth`): noop unless `control:Post-Auth-Type` equals
Reject; given Reject, noop when the request carries no EAP-Message or the
reply already carries one; fail when the request's EAP-Message is malformed;
noop silently when no EAP session can be thawed; otherwise an EAP-Failure is
composed, the session destroyed, a zero-filled Message-Authenticator
placeholder of authenticator length is guaranteed in the reply, and the hook
returns updated. -/
theorem mod_post_auth_correct (i : PostAuthIn) :
    (i.postAuthType = none → mod_post_auth i = ⟨.noop, false, false, i.replyVps⟩) ∧
    (∀ v, i.postAuthType = some v → v ≠ PW_POST_AUTH_TYPE_REJECT →
       mod_post_auth i = ⟨.noop, false, false, i.replyVps⟩) ∧
    (i.postAuthType = some PW_POST_AUTH_TYPE_REJECT →
      (i.hasEapMessage = false →
         mod_post_auth i = ⟨.noop, false, false, i.replyVps⟩) ∧
      (i.hasEapMessage = true → i.replyVps.any is_eap_message = true →
         mod_post_auth i = ⟨.noop, false, false, i.replyVps⟩) ∧
      (i.hasEapMessage = true → i.replyVps.any is_eap_message = false →
         i.decodeOk = false → mod_post_auth i = ⟨.fail, false, false, i.replyVps⟩) ∧
      (i.hasEapMessage = true → i.replyVps.any is_eap_message = false →
         i.decodeOk = true → i.sessionOk = false →
         mod_post_auth i = ⟨.noop, false, false, i.replyVps⟩) ∧
      (i.hasEapMessage = true → i.replyVps.any is_eap_message = false →
         i.decodeOk = true → i.sessionOk = true →
         (mod_post_auth i).rcode = .updated ∧
         (mod_post_auth i).eapFailComposed = true ∧
         (mod_post_auth i).sessionDestroyed = true ∧
         (mod_post_auth i).replyVps.any is_message_authenticator = true ∧
         (i.replyVps.any is_message_authenticator = false →
            (mod_post_auth i).replyVps =
              i.replyVps ++ [message_authenticator_placeholder]) ∧
         (i.replyVps.any is_message_authenticator = true →
            (mod_post_auth i).replyVps = i.replyVps))) := by
  refine ⟨?_, ?_, ?_⟩
  · intro h; simp [mod_post_auth, h]
  · intro v hv hne; simp [mod_post_auth, hv, hne]
  · intro hv
    refine ⟨?_, ?_, ?_, ?_, ?_⟩
    · intro h1; simp [mod_post_auth, hv, h1]
    · intro h1 h2; simp [mod_post_auth, hv, h1, h2]
    · intro h1 h2 h3; simp [mod_post_auth, hv, h1, h2, h3]
    · intro h1 h2 h3 h4; simp [mod_post_auth, hv, h1, h2, h3, h4]
    · intro h1 h2 h3 h4
      cases hma : i.replyVps.any is_message_authenticator with
      | true =>
        have hout : mod_post_auth i = ⟨.updated, true, true, i.replyVps⟩ := by
          simp [mod_post_auth, hv, h1, h2, h3, h4, hma]
        rw [hout]
        exact ⟨rfl, rfl, rfl, hma,
          fun hcon => Bool.noConfusion hcon,
          fun _ => rfl⟩
      | false =>
        have hout : mod_post_auth i =
            ⟨.updated, true, true, i.replyVps ++ [message_authenticator_placeholder]⟩ := by
          simp [mod_post_auth, hv, h1, h2, h3, h4, hma]
        rw [hout]
        refine ⟨rfl, rfl, rfl, ?_, fun _ => rfl,
          fun hcon => Bool.noConfusion hcon⟩
        simp [List.any_append, is_message_authenticator,
          message_authenticator_placeholder, PW_MESSAGE_AUTHENTICATOR]

/-- Concrete input for the C5 witness: Post-Auth-Type Reject, request bore an
EAP-Message, empty reply, decodable packet, live session. -/
def postAuthIn5 : PostAuthIn := ⟨some PW_POST_AUTH_TYPE_REJECT, true, true, true, []⟩

/-- Witness for C5: at `postAuthIn5` the hook composes the failure, destroys
the session and appends the zero-filled Message-Authenticator placeholder. -/
theorem mod_post_auth_correct_witness :
    postAuthIn5.postAuthType = some PW_POST_AUTH_TYPE_REJECT ∧
    (mod_post_auth postAuthIn5).rcode = Rcode.updated ∧
    (mod_post_auth postAuthIn5).eapFailComposed = true ∧
    (mod_post_auth postAuthIn5).replyVps = [message_authenticator_placeholder] := by
  have h := ((mod_post_auth_correct postAuthIn5).2.2 rfl).2.2.2.2 rfl rfl rfl rfl
  exact ⟨rfl, h.1, h.2.1, h.2.2.2.2.1 rfl⟩

/-!
### `mod_authorize` (rlm_eap.c lines 607-668)

`hasProxy` is the `request->proxy != NULL` test of line 620, `startStatus`
the result of the external `eap_start` probe (line 634), `control` the
control attribute list restricted to integer-valued pairs, and
`instAuthType` the dictionary value of this module instance's name as an
`Auth-Type` enum.
-/

/-- A control-list attribute with an integer value (`vp_integer`). -/
structure CtrlPair where
  attr : Nat
  val : Nat
deriving DecidableEq, Repr

structure AuthzIn where
  hasProxy : Bool
  startStatus : Rcode
  control : List CtrlPair
  instAuthType : Nat
deriving DecidableEq, Repr

/-- The lookup `fr_pair_find_by_num(request->control, 0, PW_AUTH_TYPE, TAG_ANY)` of
line 653. -/
def find_auth_type (ctl : List CtrlPair) : Option CtrlPair :=
  ctl.find? (fun p => decide (p.attr = PW_AUTH_TYPE))

/-- The hook `mod_authorize` (lines 607-668).  `pair_make_config` appends a fresh
pair to the control list; its allocation-failure branch (the `fail` return
of line 659) is not modelled. -/
def mod_authorize (i : AuthzIn) : Rcode × List CtrlPair :=
  if i.hasProxy then (.noop, i.control)
  else if i.startStatus = .noop || i.startStatus = .fail || i.startStatus = .handled then
    (i.startStatus, i.control)
  else
    let ctl :=
      if (match find_auth_type i.control with
          | none => true
          | some v => decide (v.val ≠ PW_AUTH_TYPE_REJECT)) then
        i.control ++ [⟨PW_AUTH_TYPE, i.instAuthType⟩]
      else i.control
    (if i.startStatus = .ok then .ok else .updated, ctl)

/-- Concrete input for C7: `Auth-Type` already pinned to another module
(enum value 7, distinct from Reject and from this instance's value 9). -/
def authzIn7 : AuthzIn := ⟨false, .updated, [⟨PW_AUTH_TYPE, 7⟩], 9⟩

/-- Counterexample for C7: with `control:Auth-Type` already pinning the
request to another module (value 7, not Reject), the claim says the hook
does not set `Auth-Type`; the code nevertheless appends a second
`Auth-Type` pair for this instance, so the control list changes. -/
theorem mod_authorize_pinned_counterexample :
    find_auth_type authzIn7.control = some ⟨PW_AUTH_TYPE, 7⟩ ∧
    (7 : Nat) ≠ PW_AUTH_TYPE_REJECT ∧
    (7 : Nat) ≠ authzIn7.instAuthType ∧
    (mod_authorize authzIn7).2 ≠ authzIn7.control ∧
    (mod_authorize authzIn7).2 =
      authzIn7.control ++ [⟨PW_AUTH_TYPE, authzIn7.instAuthType⟩] := by
  decide

/-- C7 (amended): `mod_authorize` returns noop for every request that
carries a proxy sub-request; it propagates a terminating eap-start probe
result (noop, fail or handled) unchanged; otherwise it appends
`control:Auth-Type := <instance>` unless the first `Auth-Type` marker equals
Reject — a marker pinning the request to another module does not suppress
the append (the earlier marker still takes precedence under first-match
lookup) — and returns ok when the probe returned ok, else updated. -/
theorem mod_authorize_correct (i : AuthzIn) :
    (i.hasProxy = true → mod_authorize i = (.noop, i.control)) ∧
    (i.hasProxy = false →
       (i.startStatus = .noop ∨ i.startStatus = .fail ∨ i.startStatus = .handled) →
       mod_authorize i = (i.startStatus, i.control)) ∧
    (i.hasProxy = false → i.startStatus ≠ .noop → i.startStatus ≠ .fail →
       i.startStatus ≠ .handled →
       (mod_authorize i).1 = (if i.startStatus = .ok then Rcode.ok else Rcode.updated) ∧
       (∀ v, find_auth_type i.control = some v → v.val = PW_AUTH_TYPE_REJECT →
          (mod_authorize i).2 = i.control) ∧
       (∀ v, find_auth_type i.control = some v → v.val ≠ PW_AUTH_TYPE_REJECT →
          (mod_authorize i).2 = i.control ++ [⟨PW_AUTH_TYPE, i.instAuthType⟩]) ∧
       (find_auth_type i.control = none →
          (mod_authorize i).2 = i.control ++ [⟨PW_AUTH_TYPE, i.instAuthType⟩])) := by
  refine ⟨?_, ?_, ?_⟩
  · intro h; simp [mod_authorize, h]
  · intro h hs
    rcases hs with hs | hs | hs <;> simp [mod_authorize, h, hs]
  · intro h hn hf hh
    refine ⟨?_, ?_, ?_, ?_⟩
    · simp [mod_authorize, h, hn, hf, hh]
    · intro v hv hr; simp [mod_authorize, h, hn, hf, hh, hv, hr]
    · intro v hv hr; simp [mod_authorize, h, hn, hf, hh, hv, hr]
    · intro hv; simp [mod_authorize, h, hn, hf, hh, hv]

/-- Witness for C7 (amended): at `authzIn7` the probe did not terminate the
hook, the append happens and the result is updated. -/
theorem mod_authorize_correct_witness :
    authzIn7.hasProxy = false ∧
    (mod_authorize authzIn7).1 = Rcode.updated ∧
    (mod_authorize authzIn7).2 = [⟨PW_AUTH_TYPE, 7⟩, ⟨PW_AUTH_TYPE, 9⟩] := by
  have h := (mod_authorize_correct authzIn7).2.2 rfl
    (by decide) (by decide) (by decide)
  exact ⟨rfl, h.1, h.2.2.1 ⟨PW_AUTH_TYPE, 7⟩ (by decide) (by decide)⟩

/-!
### `mod_post_proxy`, no-proxied-session path (rlm_eap.c lines 761-847)

The hook's second half handles the `leap:session-key` rewrap of a proxied
LEAP reply.  `decodeTP` and `encodeTP` model the external collaborators
`fr_radius_decode_tunnel_password` and `fr_radius_encode_tunnel_password`,
taking the data, the secret and the request authenticator and returning
`none` on error.
-/

/-- ASCII bytes of the literal "leap:session-key=" (17 octets). -/
def leap_key_literal : List Nat :=
  [108, 101, 97, 112, 58, 115, 101, 115, 115, 105, 111, 110, 45, 107, 101, 121, 61]

/-- ASCII lower-casing of one byte, as `strncasecmp` compares. -/
def ascii_lower (b : Nat) : Nat := if 65 ≤ b ∧ b ≤ 90 then b + 32 else b

/-- The test `strncasecmp(vp->vp_strvalue, "leap:session-key=", 17) == 0` test of
line 785 (a value shorter than 17 octets never matches: its NUL terminator
stops the comparison). -/
def has_leap_key_literal (v : List Nat) : Bool :=
  decide ((v.take 17).map ascii_lower = leap_key_literal)

/-- The cursor scan of lines 777-786: `fr_cursor_init` yields the head of
the list, which is tested against the prefix regardless of its vendor and
attribute numbers; only the later iterations, produced by
`fr_cursor_next_by_num(&cursor, 9, 1, TAG_ANY)`, are restricted to
Cisco-AVPair (vendor 9, attribute 1). -/
def leap_scan (vps : List Pair) : Option Nat :=
  match vps with
  | [] => none
  | p :: rest =>
    if has_leap_key_literal p.value then some 0
    else (findFirstIdx
        (fun q => decide (q.vendor = 9) && decide (q.attr = 1) &&
          has_leap_key_literal q.value) rest).map (· + 1)

/-- The parts of `request->proxy` the hook reads. -/
structure ProxyData where
  reply : Option (List Pair)
  homeSecret : List Nat
  proxyVector : List Nat

/-- The parts of the request the no-proxied-session path reads. -/
structure PostProxyIn where
  proxy : Option ProxyData
  clientSecret : List Nat
  requestVector : List Nat

/-- The hook `mod_post_proxy` on the path taken when the request carries no
proxied-EAP-session marker (lines 761-847).  The outer `Option` is `none`
exactly on the null dereference of line 768, where
`request->proxy->reply` is read before any check that `request->proxy` is
non-null.  The returned list is the proxy reply's attribute list after the
hook (unchanged on every non-`updated` path). -/
def mod_post_proxy_rewrap
    (decodeTP : List Nat → List Nat → List Nat → Option (List Nat))
    (encodeTP : List Nat → List Nat → List Nat → Option (List Nat))
    (req : PostProxyIn) : Option (Rcode × Option (List Pair)) :=
  match req.proxy with
  | none => none
  | some prx =>
    match prx.reply with
    | none => some (.noop, none)
    | some vps =>
      match leap_scan vps with
      | none => some (.noop, some vps)
      | some i =>
        match vps[i]? with
        | none => some (.noop, some vps)
        | some vp =>
          if vp.value.length ≠ 17 + 34 then some (.noop, some vps)
          else
            match decodeTP (vp.value.drop 17) prx.homeSecret prx.proxyVector with
            | none => some (.fail, some vps)
            | some plain =>
              if plain.length ≠ 16 then some (.fail, some vps)
              else
                match encodeTP plain req.clientSecret req.requestVector with
                | none => some (.fail, some vps)
                | some enc =>
                  some (.updated,
                    some (vps.set i ⟨vp.vendor, vp.attr, vp.value.take 17 ++ enc⟩))

/-- C3 (`leap:session-key` rewrap in `mod_post_proxy`): with no proxy
reply the hook returns noop; with no matching attribute, or a matching
attribute whose total length is not 17 + 34 = 51 octets, it returns noop
without modifying the reply; a tunnel-password decode error under the home
server secret and proxy request authenticator, or a decoded plaintext length
different from 16, returns fail without modifying the attribute; otherwise
the plaintext is re-encoded under the client secret and the original request
authenticator and written back over the attribute value, and the hook
returns updated. -/
theorem mod_post_proxy_leap_rewrap
    (decodeTP encodeTP : List Nat → List Nat → List Nat → Option (List Nat))
    (req : PostProxyIn) (prx : ProxyData) (hp : req.proxy = some prx) :
    (prx.reply = none →
       mod_post_proxy_rewrap decodeTP encodeTP req = some (.noop, none)) ∧
    (∀ vps, prx.reply = some vps → leap_scan vps = none →
       mod_post_proxy_rewrap decodeTP encodeTP req = some (.noop, some vps)) ∧
    (∀ vps i vp, prx.reply = some vps → leap_scan vps = some i →
       vps[i]? = some vp → vp.value.length ≠ 51 →
       mod_post_proxy_rewrap decodeTP encodeTP req = some (.noop, some vps)) ∧
    (∀ vps i vp, prx.reply = some vps → leap_scan vps = some i →
       vps[i]? = some vp → vp.value.length = 51 →
       decodeTP (vp.value.drop 17) prx.homeSecret prx.proxyVector = none →
       mod_post_proxy_rewrap decodeTP encodeTP req = some (.fail, some vps)) ∧
    (∀ vps i vp plain, prx.reply = some vps → leap_scan vps = some i →
       vps[i]? = some vp → vp.value.length = 51 →
       decodeTP (vp.value.drop 17) prx.homeSecret prx.proxyVector = some plain →
       plain.length ≠ 16 →
       mod_post_proxy_rewrap decodeTP encodeTP req = some (.fail, some vps)) ∧
    (∀ vps i vp plain, prx.reply = some vps → leap_scan vps = some i →
       vps[i]? = some vp → vp.value.length = 51 →
       decodeTP (vp.value.drop 17) prx.homeSecret prx.proxyVector = some plain →
       plain.length = 16 →
       encodeTP plain req.clientSecret req.requestVector = none →
       mod_post_proxy_rewrap decodeTP encodeTP req = some (.fail, some vps)) ∧
    (∀ vps i vp plain enc, prx.reply = some vps → leap_scan vps = some i →
       vps[i]? = some vp → vp.value.length = 51 →
       decodeTP (vp.value.drop 17) prx.homeSecret prx.proxyVector = some plain →
       plain.length = 16 →
       encodeTP plain req.clientSecret req.requestVector = some enc →
       mod_post_proxy_rewrap decodeTP encodeTP req =
         some (.updated,
           some (vps.set i ⟨vp.vendor, vp.attr, vp.value.take 17 ++ enc⟩))) := by
  refine ⟨?_, ?_, ?_, ?_, ?_, ?_, ?_⟩
  · intro hr; simp [mod_post_proxy_rewrap, hp, hr]
  · intro vps hr hs; simp [mod_post_proxy_rewrap, hp, hr, hs]
  · intro vps i vp hr hs hg hl
    simp [mod_post_proxy_rewrap, hp, hr, hs, hg, hl]
  · intro vps i vp hr hs hg hl hdec
    simp [mod_post_proxy_rewrap, hp, hr, hs, hg, hl, hdec]
  · intro vps i vp plain hr hs hg hl hdec hpl
    simp [mod_post_proxy_rewrap, hp, hr, hs, hg, hl, hdec, hpl]
  · intro vps i vp plain hr hs hg hl hdec hpl henc
    simp [mod_post_proxy_rewrap, hp, hr, hs, hg, hl, hdec, hpl, henc]
  · intro vps i vp plain enc hr hs hg hl hdec hpl henc
    simp [mod_post_proxy_rewrap, hp, hr, hs, hg, hl, hdec, hpl, henc]

/-- A decode stub for the witnesses: always yields 16 bytes of 7. -/
def decodeTP0 : List Nat → List Nat → List Nat → Option (List Nat) :=
  fun _ _ _ => some (List.replicate 16 7)

/-- An encode stub for the witnesses: always yields 34 bytes of 9. -/
def encodeTP0 : List Nat → List Nat → List Nat → Option (List Nat) :=
  fun _ _ _ => some (List.replicate 34 9)

/-- Concrete input for the C3 witness: one Cisco-AVPair of length 51
starting with the LEAP prefix. -/
def ppIn3 : PostProxyIn :=
  ⟨some ⟨some [⟨9, 1, leap_key_literal ++ List.replicate 34 5⟩], [1], [2]⟩, [3], [4]⟩

/-- Witness for C3: at `ppIn3` the rewrap succeeds, replacing the 34-octet
tail by the re-encoded key and returning updated. -/
theorem mod_post_proxy_leap_rewrap_witness :
    (leap_key_literal ++ List.replicate 34 (5 : Nat)).length = 51 ∧
    mod_post_proxy_rewrap decodeTP0 encodeTP0 ppIn3 =
      some (.updated, some [⟨9, 1, leap_key_literal ++ List.replicate 34 9⟩]) := by
  refine ⟨by decide, ?_⟩
  have h := (mod_post_proxy_leap_rewrap decodeTP0 encodeTP0 ppIn3
      ⟨some [⟨9, 1, leap_key_literal ++ List.replicate 34 5⟩], [1], [2]⟩
      rfl).2.2.2.2.2.2
    [⟨9, 1, leap_key_literal ++ List.replicate 34 5⟩] 0
    ⟨9, 1, leap_key_literal ++ List.replicate 34 5⟩
    (List.replicate 16 7) (List.replicate 34 9)
    rfl (by decide) (by decide) (by decide) rfl (by decide) rfl
  rw [h]
  decide

/-- Concrete input for C9: the head of the proxy reply is not a Cisco-AVPair
(vendor 0, attribute 99) but its value begins with the LEAP prefix and has
length 51. -/
def ppIn9 : PostProxyIn :=
  ⟨some ⟨some [⟨0, 99, leap_key_literal ++ List.replicate 34 5⟩], [1], [2]⟩, [3], [4]⟩

/-- C9 (implicit behaviour of the cursor scan): the first attribute
subjected to the prefix test is the head of the proxy reply's list
regardless of its vendor and attribute numbers; consequently, for a proxy
reply whose first attribute is not a Cisco-AVPair but matches the prefix
with length 51, the rewrap is applied to that non-Cisco attribute. -/
theorem leap_scan_head_unconditional :
    (∀ (p : Pair) (rest : List Pair), has_leap_key_literal p.value = true →
       leap_scan (p :: rest) = some 0) ∧
    mod_post_proxy_rewrap decodeTP0 encodeTP0 ppIn9 =
      some (.updated, some [⟨0, 99, leap_key_literal ++ List.replicate 34 9⟩]) := by
  constructor
  · intro p rest hpm; simp [leap_scan, hpm]
  · decide

/-- Witness for C9: a non-Cisco head matching the prefix is selected by the
scan. -/
theorem leap_scan_head_unconditional_witness :
    has_leap_key_literal
      ((⟨0, 99, leap_key_literal ++ List.replicate 34 5⟩ : Pair)).value = true ∧
    leap_scan [⟨0, 99, leap_key_literal ++ List.replicate 34 5⟩] = some 0 :=
  ⟨by decide,
   leap_scan_head_unconditional.1
     (⟨0, 99, leap_key_literal ++ List.replicate 34 5⟩ : Pair) [] (by decide)⟩

/-- C10 (implicit safety of the no-proxied-session path): the hook reads
`request->proxy->reply` before any null check of `request->proxy`, so it
completes without the null dereference exactly when `request->proxy` is
non-null. -/
theorem mod_post_proxy_total_iff_proxy
    (decodeTP encodeTP : List Nat → List Nat → List Nat → Option (List Nat))
    (req : PostProxyIn) :
    (mod_post_proxy_rewrap decodeTP encodeTP req).isSome = req.proxy.isSome := by
  cases hpx : req.proxy with
  | none => simp [mod_post_proxy_rewrap, hpx]
  | some prx =>
    simp only [mod_post_proxy_rewrap, hpx, Option.isSome_some]
    cases hr : prx.reply with
    | none => simp [hr]
    | some vps =>
      cases hs : leap_scan vps with
      | none => simp [hr, hs]
      | some i =>
        cases hg : vps[i]? with
        | none => simp [hr, hs, hg]
        | some vp =>
          by_cases hl : vp.value.length = 17 + 34
          · cases hdec : decodeTP (vp.value.drop 17) prx.homeSecret prx.proxyVector with
            | none => simp [hr, hs, hg, hl, hdec]
            | some plain =>
              by_cases hpl : plain.length = 16
              · cases henc : encodeTP plain req.clientSecret req.requestVector with
                | none => simp [hr, hs, hg, hl, hdec, hpl, henc]
                | some enc => simp [hr, hs, hg, hl, hdec, hpl, henc]
              · simp [hr, hs, hg, hl, hdec, hpl]
          · simp [hr, hs, hg, hl]

/-!
### PEAP `mod_session_init` (rlm_eap_peap.c lines 221-279)

`tlsInit` models the external `eap_tls_session_init` (returns `none` on
allocation failure) and `startOk` the success of `eap_tls_start`.
-/

/-- The fields of the TLS session state that `mod_session_init` writes (the
PRF label of the inner `tls_session_t`, the PEAP base flags and the
length-included flag of `eap_tls_session_t`); `rest` stands for all the
state produced by `eap_tls_session_init` that the function leaves
untouched. -/
structure EapTlsSessionState where
  prfLabel : String
  baseFlags : Nat
  includeLength : Bool
  rest : Nat
deriving DecidableEq, Repr

/-- The session's `process` callback slot. -/
inductive ProcessCb
  | sessionInit
  | modProcess
deriving DecidableEq, Repr

/-- Inputs `mod_session_init` reads: the value of the first
`control:EAP-TLS-Require-Client-Cert` pair when present, and the static
`require_client_cert` configuration. -/
structure PeapInitIn where
  requireClientCertVp : Option Nat
  reqClientCertConf : Bool
deriving Repr

/-- Observable outcome: the C return value, `eap_session->tls`, the client
certificate requirement passed to the TLS layer, the TLS session state, the
installed `process` callback, and whether the EAP-TLS Start went out. -/
structure PeapInitOut where
  ret : Nat
  tls : Bool
  clientCert : Bool
  tlsState : Option EapTlsSessionState
  process : Option ProcessCb
  startSent : Bool
deriving DecidableEq, Repr

/-- The client-certificate decision of lines 234-239:
`control:EAP-TLS-Require-Client-Cert` overrides the static configuration,
requiring a certificate iff its integer value is non-zero. -/
def peap_client_cert (i : PeapInitIn) : Bool :=
  match i.requireClientCertVp with
  | some n => decide (n ≠ 0)
  | none => i.reqClientCertConf

/-- The initialiser `mod_session_init` of PEAP (lines 221-279).  `eap_session->tls = true` is
set before anything can fail; on a start failure the TLS session is freed
(line 272) and 0 returned; on success `mod_process` is installed and 1
returned. -/
def peap_session_init
    (tlsInit : Bool → Option EapTlsSessionState) (startOk : Bool)
    (i : PeapInitIn) : PeapInitOut :=
  let client_cert := peap_client_cert i
  match tlsInit client_cert with
  | none => ⟨0, true, client_cert, none, none, false⟩
  | some s =>
    let s1 := { s with prfLabel := "client EAP encryption",
                       baseFlags := 0, includeLength := false }
    if startOk then ⟨1, true, client_cert, some s1, some .modProcess, true⟩
    else ⟨0, true, client_cert, none, none, false⟩

/-- C8 (PEAP `mod_session_init`): every invocation sets
`eap_session.tls := true`; a client certificate is required iff
`control:EAP-TLS-Require-Client-Cert` is present and non-zero, and otherwise
iff the static `require_client_cert` configuration is set; on success the
TLS PRF label is "client EAP encryption", `base_flags` is 0,
`include_length` is false, an EAP-TLS Start is sent, `mod_process` is
installed as the process callback and the function returns 1 (non-zero); it
returns 0 when TLS session allocation or sending the Start fails. -/
theorem peap_session_init_correct
    (tlsInit : Bool → Option EapTlsSessionState) (startOk : Bool) (i : PeapInitIn) :
    (peap_session_init tlsInit startOk i).tls = true ∧
    (peap_session_init tlsInit startOk i).clientCert = peap_client_cert i ∧
    (∀ n, i.requireClientCertVp = some n → peap_client_cert i = decide (n ≠ 0)) ∧
    (i.requireClientCertVp = none → peap_client_cert i = i.reqClientCertConf) ∧
    (∀ s, tlsInit (peap_client_cert i) = some s → startOk = true →
       peap_session_init tlsInit startOk i =
         ⟨1, true, peap_client_cert i,
          some ⟨"client EAP encryption", 0, false, s.rest⟩,
          some .modProcess, true⟩) ∧
    (tlsInit (peap_client_cert i) = none →
       (peap_session_init tlsInit startOk i).ret = 0 ∧
       (peap_session_init tlsInit startOk i).process = none) ∧
    (∀ s, tlsInit (peap_client_cert i) = some s → startOk = false →
       (peap_session_init tlsInit startOk i).ret = 0 ∧
       (peap_session_init tlsInit startOk i).process = none) := by
  refine ⟨?_, ?_, ?_, ?_, ?_, ?_, ?_⟩
  · cases hti : tlsInit (peap_client_cert i) with
    | none => simp [peap_session_init, hti]
    | some s =>
      cases startOk <;> simp [peap_session_init, hti]
  · cases hti : tlsInit (peap_client_cert i) with
    | none => simp [peap_session_init, hti]
    | some s =>
      cases startOk <;> simp [peap_session_init, hti]
  · intro n hn; simp [peap_client_cert, hn]
  · intro hn; simp [peap_client_cert, hn]
  · intro s hti hst; simp [peap_session_init, hti, hst]
  · intro hti; simp [peap_session_init, hti]
  · intro s hti hst; simp [peap_session_init, hti, hst]

/-- A TLS allocation stub for the C8 witness. -/
def tlsInit0 : Bool → Option EapTlsSessionState :=
  fun _ => some ⟨"x", 7, true, 42⟩

/-- Concrete input for the C8 witness: the control attribute is present with
value 3, overriding the static configuration. -/
def peapIn8 : PeapInitIn := ⟨some 3, false⟩

/-- Witness for C8: at `peapIn8` with `tlsInit0` and a successful start, a
client certificate is required, the session fields are set as mandated for
PEAP v0 and `mod_process` is installed. -/
theorem peap_session_init_correct_witness :
    tlsInit0 (peap_client_cert peapIn8) = some ⟨"x", 7, true, 42⟩ ∧
    peap_session_init tlsInit0 true peapIn8 =
      ⟨1, true, true, some ⟨"client EAP encryption", 0, false, 42⟩,
       some .modProcess, true⟩ := by
  refine ⟨rfl, ?_⟩
  have h := (peap_session_init_correct tlsInit0 true peapIn8).2.2.2.2.1
    ⟨"x", 7, true, 42⟩ rfl rfl
  rw [h]
  decide

end RlmEap
